import Mathlib

/-!
Verification development for the memory admission and scoring pipeline:
the `MemoryGuard` lexical gate (`src/core/memory_guard.py`), the
`Archivarius.learn` admission funnel (`src/agents/archivarius.py`) and the
`BrainAgent._retrieve_context` query service
(`src/agartha gateopener/src/agents/brain.py`).

Python strings are modelled as `List Char`; Python `None` for an optional
string argument is modelled as `Option (List Char)` with `none` standing for
`None`.  Python floats are modelled as `ℚ` — every constant involved
(5.0, 2.0, 1.5, 7.0, 10.0 and their sums) is exactly representable in
binary floating point, so the rational model is exact.  Exceptions are
modelled with `Except PyErr`.
-/

namespace MemoryPipeline

/-- A Python string: a list of characters. -/
abbrev Str := List Char

/-- Python `str.lower()` (modelled on the ASCII range, which covers all
vocabulary lists and the texts handled by the gates). -/
def toLower (s : Str) : Str := s.map Char.toLower

/-- Python `str.upper()` (ASCII range). -/
def toUpper (s : Str) : Str := s.map Char.toUpper

/-- Characters matched by the regex class `\s` (ASCII range). -/
def isWs (c : Char) : Bool :=
  c = ' ' || c = '\t' || c = '\n' || c = '\r' || c = '\x0b' || c = '\x0c'

/-- Python `str.strip()`: drop leading and trailing whitespace. -/
def strip (s : Str) : Str :=
  (((s.dropWhile isWs).reverse).dropWhile isWs).reverse

/-- Python substring test `needle in haystack`. -/
def containsSubstr (haystack needle : Str) : Bool :=
  match haystack with
  | [] => needle.isEmpty
  | _ :: rest => needle.isPrefixOf haystack || containsSubstr rest needle

/-- Regex fragment `\s+` followed by a continuation test `p` on the rest of
the input: at least one whitespace character, then `p` holds at the
remainder (all backtracking splits are tried, as `re.search` does). -/
def wsPlusThen (p : Str → Bool) : Str → Bool
  | [] => false
  | c :: rest => isWs c && (p rest || wsPlusThen p rest)

/-- `re.search` of a pattern of the shape `w1\s+w2` (two literal words
separated by one-or-more whitespace); every blacklist pattern of
`MemoryGuard` has this shape. -/
def searchLitWsLit (w1 w2 : Str) : Str → Bool
  | [] => false
  | l@(_ :: rest) =>
      (w1.isPrefixOf l && wsPlusThen (fun r => w2.isPrefixOf r) (l.drop w1.length))
        || searchLitWsLit w1 w2 rest

/-- One blacklist entry of `MemoryGuard.__init__`: the source stores a regex
`w1\s+w2` together with a human-readable reason; here the two literal halves
around the `\s+` are kept separately. -/
structure BlPattern where
  w1 : Str
  w2 : Str
  reason : Str
deriving DecidableEq, Repr

/-- `MemoryGuard.blacklist_patterns`: the five banned regexes
(`chatgpt\s+wrapper`, `passive\s+income`, `course\s+selling`,
`no-code\s+builder`, `crypto\s+pump`), each split at its `\s+`. -/
def blacklist_patterns : List BlPattern :=
  [⟨"chatgpt".data, "wrapper".data, "ChatGPT wrapper spam".data⟩,
   ⟨"passive".data, "income".data, "Passive income noise".data⟩,
   ⟨"course".data, "selling".data, "Course selling spam".data⟩,
   ⟨"no-code".data, "builder".data, "No-code builder spam".data⟩,
   ⟨"crypto".data, "pump".data, "Crypto pump spam".data⟩]

/-- `MemoryGuard.authority_names`. -/
def authority_names : List Str :=
  ["karpathy".data, "lecun".data, "altman".data, "hassabis".data]

/-- `MemoryGuard.relevance_keywords`. -/
def relevance_keywords : List Str :=
  ["rtx 4090".data, "gsoc".data, "optimization".data, "cuda".data, "agentic".data]

/-- `MemoryGuard.trusted_domains`. -/
def trusted_domains : List Str :=
  ["github.com".data, "arxiv.org".data, "huggingface.co".data]

/-- `MemoryGuard.is_garbage` on a (non-`None`) string: lowercase the text and
search it for any blacklist pattern. -/
def is_garbage (text : Str) : Bool :=
  let text_lower := toLower text
  blacklist_patterns.any fun p => searchLitWsLit p.w1 p.w2 text_lower

/-- Lowercase a..z test, regex class `[a-z]`. -/
def isLowerAlpha (c : Char) : Bool := 'a' ≤ c && c ≤ 'z'

/-- Uppercase A..Z test, regex class `[A-Z]`. -/
def isUpperAlpha (c : Char) : Bool := 'A' ≤ c && c ≤ 'Z'

/-- Continuation for the regex alternative `\$\s+[a-z]+`: after the
whitespace, at least one lowercase letter. -/
def headLowerAlpha : Str → Bool
  | c :: _ => isLowerAlpha c
  | [] => false

/-- Continuation for the regex alternative `>\s+[A-Z]:`: after the
whitespace, an uppercase letter then a colon. -/
def upperThenColon : Str → Bool
  | d :: e :: _ => isUpperAlpha d && e = ':'
  | _ => false

/-- `re.search(r'\$\s+[a-z]+|>\s+[A-Z]:|C:\\\\', text)` of
`MemoryGuard.calculate_score` (the third alternative matches the literal
four characters `C`, `:`, backslash, backslash). -/
def terminal_regex_search : Str → Bool
  | [] => false
  | c :: rest =>
      (c = '$' && wsPlusThen headLowerAlpha rest)
        || (c = '>' && wsPlusThen upperThenColon rest)
        || (c = 'C' && (':' :: '\\' :: '\\' :: []).isPrefixOf rest)
        || terminal_regex_search rest

/-- The code-fence marker, three backticks. -/
def codeFence : Str := "```".data

/-- Trusted-domain bonus trigger: some trusted domain occurs in the
lowercased text (the `break` in the source loop awards the bonus once). -/
def domainHit (text_lower : Str) : Bool :=
  trusted_domains.any fun d => containsSubstr text_lower d

/-- Code-block / terminal-log bonus trigger, checked on the original text. -/
def codeHit (text : Str) : Bool :=
  containsSubstr text codeFence || terminal_regex_search text

/-- Authority-name bonus trigger on the lowercased text. -/
def authorityHit (text_lower : Str) : Bool :=
  authority_names.any fun n => containsSubstr text_lower n

/-- Relevance-keyword bonus trigger on the lowercased text. -/
def keywordHit (text_lower : Str) : Bool :=
  relevance_keywords.any fun k => containsSubstr text_lower k

/-- A metadata value: the admission pipeline only ever reads string values,
numeric values and lists of strings (the `tags` list). -/
inductive MVal where
  | str : Str → MVal
  | num : ℚ → MVal
  | list : List Str → MVal
deriving DecidableEq, Repr

/-- A Python dict used as metadata: an insertion-ordered association list. -/
abbrev Metadata := List (Str × MVal)

/-- `MemoryGuard.calculate_score` on a (non-`None`) string: base 5.0, four
independent category bonuses (each awarded at most once, mirroring the
`break`-terminated loops and single `if`s of the source), capped at 10.0
(`min(score, 10.0)`, written as its conditional so it evaluates).
The `metadata` argument is accepted and ignored, as in the source. -/
def calculate_score (text : Str) (_metadata : Option Metadata) : ℚ :=
  let text_lower := toLower text
  let score : ℚ := 5
  let score := if domainHit text_lower then score + 2 else score
  let score := if codeHit text then score + 3/2 else score
  let score := if authorityHit text_lower then score + 2 else score
  let score := if keywordHit text_lower then score + 2 else score
  if score ≤ 10 then score else 10

/-- The reason field of `MemoryGuard.evaluate`'s result: either the
blacklist message or the evidence-score message (carrying the score). -/
inductive EvalReason where
  | blockedByBlacklist
  | evidenceScore : ℚ → EvalReason
deriving DecidableEq, Repr

/-- The dict returned by `MemoryGuard.evaluate`. -/
structure EvalResult where
  passed : Bool
  score : ℚ
  reason : EvalReason
deriving DecidableEq, Repr

/-- `MemoryGuard.evaluate` on a (non-`None`) string. -/
def evaluate (text : Str) (metadata : Option Metadata) : EvalResult :=
  if is_garbage text then
    ⟨false, 0, EvalReason.blockedByBlacklist⟩
  else
    let score := calculate_score text metadata
    ⟨true, score, EvalReason.evidenceScore score⟩

/-- Python exceptions reaching the modelled code: `AttributeError` (from
`None.lower()`), `TypeError` (from `value + [tag]` on a non-list), and the
exception raised by the embedding backend inside `add_documents`. -/
inductive PyErr where
  | attributeError
  | typeError
  | embeddingError
deriving DecidableEq, Repr

/-- `MemoryGuard.is_garbage` at the Python call boundary: its first
statement `text.lower()` raises `AttributeError` when `text` is `None`. -/
def is_garbage_py (text : Option Str) : Except PyErr Bool :=
  match text with
  | none => Except.error PyErr.attributeError
  | some t => Except.ok (is_garbage t)

/-- `MemoryGuard.calculate_score` at the Python call boundary:
`text.lower()` raises `AttributeError` when `text` is `None`. -/
def calculate_score_py (text : Option Str) (metadata : Option Metadata) :
    Except PyErr ℚ :=
  match text with
  | none => Except.error PyErr.attributeError
  | some t => Except.ok (calculate_score t metadata)

/-- `MemoryGuard.evaluate` at the Python call boundary: it first calls
`is_garbage(text)`, which raises `AttributeError` when `text` is `None`. -/
def evaluate_py (text : Option Str) (metadata : Option Metadata) :
    Except PyErr EvalResult :=
  match text with
  | none => Except.error PyErr.attributeError
  | some t => Except.ok (evaluate t metadata)

/-- Dict lookup `d.get(key)` on the association-list model. -/
def getKey : Metadata → Str → Option MVal
  | [], _ => none
  | (k, v) :: rest, key => if k = key then some v else getKey rest key

/-- Dict update `d[key] = v` (and the effect of a later key in a
`{**d, key: v}` merge): replace in place when present, append otherwise. -/
def setKey : Metadata → Str → MVal → Metadata
  | [], key, v => [(key, v)]
  | (k, w) :: rest, key, v =>
      if k = key then (k, v) :: rest else (k, w) :: setKey rest key v

/-- A langchain `Document`: page content plus metadata. -/
structure Document where
  page_content : Str
  metadata : Metadata
deriving DecidableEq, Repr

/-- The FAISS vector store as seen through `Archivarius`: the in-memory
index (`add_documents` appends to it) and the records persisted on disk
(`save_local` copies the in-memory index there). -/
structure Store where
  mem : List Document
  disk : List Document
deriving DecidableEq, Repr

/-- The environment of one `learn` run: the outcome of the single LLM chain
invocation inside `_deep_think` (`Except.error` = the backend raised or
timed out, `Except.ok raw` = the raw model output), whether embedding
generation inside `add_documents` succeeds, and the timestamp string
`datetime.now().isoformat()`. -/
structure Env where
  thinkOutcome : Except Unit Str
  embedOk : Bool
  now : Str

/-- The literal `"RELEVANT"`. -/
def RELEVANT : Str := "RELEVANT".data

/-- The literal `"NOISE"`. -/
def NOISE : Str := "NOISE".data

/-- `Archivarius._deep_think`: invoke the chain once; on any exception
return `"NOISE"`; otherwise strip and uppercase the output and return
`"RELEVANT"` iff it contains the substring `"RELEVANT"`. -/
def deep_think (env : Env) (_text : Str) : Str :=
  match env.thinkOutcome with
  | Except.error _ => NOISE
  | Except.ok raw =>
      let result := toUpper (strip raw)
      if containsSubstr result RELEVANT then RELEVANT else NOISE

/-- ASCII control characters (Unicode category C within the ASCII range:
codepoints below 32 and 127). -/
def isControlChar (c : Char) : Bool := c.toNat < 32 || c.toNat = 127

/-- `utils.remove_control_characters(text, keep_newlines=True)`: drop
control characters except newline, carriage return and tab. -/
def remove_control_characters (text : Str) : Str :=
  text.filter fun c => !isControlChar c || c = '\n' || c = '\r' || c = '\t'

/-- `utils.sanitize_for_grpc`: control-character removal followed by
Unicode transliteration, NFC normalization and a UTF-8 encode/decode cycle;
the latter three passes are the identity on the ASCII-range texts modelled
here, so only the control-character removal remains. -/
def sanitize_for_grpc (text : Str) : Str :=
  remove_control_characters text

/-- Key `"score"`. -/
def scoreKey : Str := "score".data

/-- Key `"timestamp"`. -/
def timestampKey : Str := "timestamp".data

/-- Key `"source"`. -/
def sourceKey : Str := "source".data

/-- Key `"tags"`. -/
def tagsKey : Str := "tags".data

/-- Key `"priority"`. -/
def priorityKey : Str := "priority".data

/-- The stamped source value `"archivarius"`. -/
def archivariusStr : Str := "archivarius".data

/-- The stamped priority value `"alpha"`. -/
def alphaStr : Str := "alpha".data

/-- The stamped tag `"#Priority_Alpha"`. -/
def priorityAlphaTag : Str := "#Priority_Alpha".data

/-- `Archivarius._save_to_faiss`: sanitize the text, build
`{**metadata, "score": score, "timestamp": now, "source": "archivarius"}`,
wrap it in a `Document`, `add_documents` (the langchain FAISS
implementation embeds the content first, so an embedding failure raises
before any mutation of the index), then `save_local`.  Returns the
exception-or-unit outcome together with the store state after the call. -/
def save_to_faiss (env : Env) (store : Store) (text : Str)
    (metadata : Metadata) (score : ℚ) : Except PyErr Unit × Store :=
  let clean_text := sanitize_for_grpc text
  let full_metadata :=
    setKey (setKey (setKey metadata scoreKey (MVal.num score))
        timestampKey (MVal.str env.now))
      sourceKey (MVal.str archivariusStr)
  let doc : Document := ⟨clean_text, full_metadata⟩
  if env.embedOk then
    let docs := store.mem ++ [doc]
    (Except.ok (), ⟨docs, docs⟩)
  else
    (Except.error PyErr.embeddingError, store)

/-- `metadata.get("tags", []) + ["#Priority_Alpha"]` reads the `tags` entry:
absent means `[]`; a non-list value makes the subsequent `+` raise
`TypeError`. -/
def pyGetTags (metadata : Metadata) : Except PyErr (List Str) :=
  match getKey metadata tagsKey with
  | none => Except.ok []
  | some (MVal.list ts) => Except.ok ts
  | some _ => Except.error PyErr.typeError

/-- `pyGetTags` succeeds (the `tags` entry, when present, is a list). -/
def tagsOk (metadata : Metadata) : Bool :=
  match pyGetTags metadata with
  | Except.ok _ => true
  | Except.error _ => false

/-- `Archivarius.learn`: the admission funnel.  Step 1 blacklist check,
step 2 Deep Think, step 3 evidence score against the strict `< 7.0` test,
step 4 tag stamping and `_save_to_faiss`.  Returns the Python outcome
(`Except.ok` verdict or a propagated exception) paired with the store state
after the call. -/
def learn (env : Env) (store : Store) (text : Str)
    (metadata : Option Metadata) : Except PyErr Bool × Store :=
  let metadata := metadata.getD []
  if is_garbage text then (Except.ok false, store)
  else
    let think_result := deep_think env text
    if think_result = NOISE then (Except.ok false, store)
    else
      let score := calculate_score text (some metadata)
      if score < 7 then (Except.ok false, store)
      else
        match pyGetTags metadata with
        | Except.error e => (Except.error e, store)
        | Except.ok ts =>
            let metadata := setKey metadata tagsKey (MVal.list (ts ++ [priorityAlphaTag]))
            let metadata := setKey metadata priorityKey (MVal.str alphaStr)
            match save_to_faiss env store text metadata score with
            | (Except.ok _, store') => (Except.ok true, store')
            | (Except.error e, store') => (Except.error e, store')

/-- `BrainAgent._retrieve_context`: when `self.vectorstore` is `None`
return `""`; otherwise run `similarity_search(query, k=2)` (its outcome —
an exception or a document list — is supplied by the environment); on an
exception or an empty result list return `""`; otherwise join the sanitized
page contents, each prefixed by a dash and a space, with newlines. -/
def retrieve_context (vectorstore : Option (List Document))
    (searchOutcome : Except Unit (List Document)) (_query : Str) : Str :=
  match vectorstore with
  | none => []
  | some _ =>
      match searchOutcome with
      | Except.error _ => []
      | Except.ok docs =>
          if docs.isEmpty then []
          else
            List.intercalate ['\n']
              (docs.map fun d => '-' :: ' ' :: sanitize_for_grpc d.page_content)

/-- The metadata of a record admitted by `learn`: the caller metadata with
`tags` extended by `"#Priority_Alpha"`, `priority` set to `"alpha"`, then
the `_save_to_faiss` merge stamping `score`, `timestamp` and `source`. -/
def stampedMeta (md : Metadata) (ts : List Str) (score : ℚ) (now : Str) : Metadata :=
  setKey (setKey (setKey (setKey (setKey md
        tagsKey (MVal.list (ts ++ [priorityAlphaTag])))
      priorityKey (MVal.str alphaStr))
    scoreKey (MVal.num score))
    timestampKey (MVal.str now))
    sourceKey (MVal.str archivariusStr)

/-- The document a successful `learn` run inserts. -/
def acceptedDoc (text : Str) (md : Metadata) (ts : List Str) (score : ℚ) (now : Str) : Document :=
  ⟨sanitize_for_grpc text, stampedMeta md ts score now⟩

/-- Example text hitting all four bonus categories (trusted domain,
terminal pattern, authority name, relevance keyword); evidence score 10. -/
def exText : Str := "github.com karpathy cuda $ ls".data

/-- Example text hitting only the trusted-domain bonus; evidence score
exactly 7. -/
def text7 : Str := "github.com".data

/-- Example text matching the `passive\s+income` blacklist pattern. -/
def gText : Str := "passive income tricks".data

/-- Example text hitting no bonus category; evidence score 5. -/
def lowText : Str := "hello".data

/-- Timestamp string used by the example environments. -/
def ts0 : Str := "2026-10-12T00:00:00".data

/-- Environment where the Deep Think backend answers `"RELEVANT"` and
embedding succeeds. -/
def env0 : Env := ⟨Except.ok RELEVANT, true, ts0⟩

/-- Environment where the Deep Think backend raises. -/
def envErr : Env := ⟨Except.error (), true, ts0⟩

/-- Environment where the backend answers `"RELEVANT"` but embedding
generation fails. -/
def envNoEmbed : Env := ⟨Except.ok RELEVANT, false, ts0⟩

/-- The empty store. -/
def store0 : Store := ⟨[], []⟩

/-- The string `"beta"`. -/
def betaStr : Str := "beta".data

/-- The string `"keep"`. -/
def keepStr : Str := "keep".data

/-- The key `"platform"`. -/
def platformKey : Str := "platform".data

/-- The string `"discord"`. -/
def discordStr : Str := "discord".data

/-- Caller metadata carrying its own `priority` value. -/
def mdBeta : Metadata := [(priorityKey, MVal.str betaStr)]

/-- Caller metadata carrying its own `tags` list. -/
def mdTags : Metadata := [(tagsKey, MVal.list [keepStr])]

/-- Caller metadata carrying an unrelated key and its own `priority`. -/
def mdExtra : Metadata := [(platformKey, MVal.str discordStr), (priorityKey, MVal.str betaStr)]

lemma relevant_ne_noise : ¬ (RELEVANT = NOISE) := by decide

lemma deep_think_eq_or (env : Env) (text : Str) :
    deep_think env text = RELEVANT ∨ deep_think env text = NOISE := by
  unfold deep_think
  cases env.thinkOutcome with
  | error e => exact Or.inr rfl
  | ok raw =>
      by_cases h : containsSubstr (toUpper (strip raw)) RELEVANT = true
      · exact Or.inl (by simp [h])
      · exact Or.inr (by simp [h])

lemma getKey_setKey_self (m : Metadata) (k : Str) (v : MVal) :
    getKey (setKey m k v) k = some v := by
  induction m with
  | nil => simp [setKey, getKey]
  | cons hd tl ih =>
      obtain ⟨k0, w⟩ := hd
      by_cases h : k0 = k
      · simp [setKey, getKey, h]
      · simp [setKey, getKey, h, ih]

lemma getKey_setKey_ne (m : Metadata) (k k' : Str) (v : MVal) (h : k ≠ k') :
    getKey (setKey m k v) k' = getKey m k' := by
  induction m with
  | nil => simp [setKey, getKey, h]
  | cons hd tl ih =>
      obtain ⟨k0, w⟩ := hd
      by_cases h0 : k0 = k
      · subst h0
        simp [setKey, getKey, h]
      · simp [setKey, getKey, h0, ih]

lemma getKey_stamped_tags (md : Metadata) (ts : List Str) (score : ℚ) (now : Str) :
    getKey (stampedMeta md ts score now) tagsKey =
      some (MVal.list (ts ++ [priorityAlphaTag])) := by
  unfold stampedMeta
  rw [getKey_setKey_ne _ _ _ _ (by decide), getKey_setKey_ne _ _ _ _ (by decide),
    getKey_setKey_ne _ _ _ _ (by decide), getKey_setKey_ne _ _ _ _ (by decide),
    getKey_setKey_self]

lemma getKey_stamped_priority (md : Metadata) (ts : List Str) (score : ℚ) (now : Str) :
    getKey (stampedMeta md ts score now) priorityKey = some (MVal.str alphaStr) := by
  unfold stampedMeta
  rw [getKey_setKey_ne _ _ _ _ (by decide), getKey_setKey_ne _ _ _ _ (by decide),
    getKey_setKey_ne _ _ _ _ (by decide), getKey_setKey_self]

lemma getKey_stamped_score (md : Metadata) (ts : List Str) (score : ℚ) (now : Str) :
    getKey (stampedMeta md ts score now) scoreKey = some (MVal.num score) := by
  unfold stampedMeta
  rw [getKey_setKey_ne _ _ _ _ (by decide), getKey_setKey_ne _ _ _ _ (by decide),
    getKey_setKey_self]

lemma getKey_stamped_source (md : Metadata) (ts : List Str) (score : ℚ) (now : Str) :
    getKey (stampedMeta md ts score now) sourceKey = some (MVal.str archivariusStr) := by
  unfold stampedMeta
  rw [getKey_setKey_self]

lemma getKey_stamped_other (md : Metadata) (ts : List Str) (score : ℚ) (now : Str)
    (k : Str) (h1 : k ≠ sourceKey) (h2 : k ≠ scoreKey) (h3 : k ≠ timestampKey)
    (h4 : k ≠ tagsKey) (h5 : k ≠ priorityKey) :
    getKey (stampedMeta md ts score now) k = getKey md k := by
  unfold stampedMeta
  rw [getKey_setKey_ne _ _ _ _ (Ne.symm h1), getKey_setKey_ne _ _ _ _ (Ne.symm h3),
    getKey_setKey_ne _ _ _ _ (Ne.symm h2), getKey_setKey_ne _ _ _ _ (Ne.symm h5),
    getKey_setKey_ne _ _ _ _ (Ne.symm h4)]

lemma learn_accept_eq (env : Env) (store : Store) (text : Str) (md : Metadata)
    (ts : List Str) (hg : is_garbage text = false)
    (hr : deep_think env text = RELEVANT)
    (hs : ¬ calculate_score text (some md) < 7)
    (hts : pyGetTags md = Except.ok ts) (he : env.embedOk = true) :
    learn env store text (some md) =
      (Except.ok true,
        ⟨store.mem ++ [acceptedDoc text md ts (calculate_score text (some md)) env.now],
         store.mem ++ [acceptedDoc text md ts (calculate_score text (some md)) env.now]⟩) := by
  unfold learn acceptedDoc stampedMeta save_to_faiss
  simp [hg, hr, hs, hts, he, relevant_ne_noise]

lemma learn_true_inv (env : Env) (store : Store) (text : Str) (md : Metadata)
    (s' : Store) (h : learn env store text (some md) = (Except.ok true, s')) :
    ∃ ts, pyGetTags md = Except.ok ts ∧ is_garbage text = false ∧
      deep_think env text = RELEVANT ∧ 7 ≤ calculate_score text (some md) ∧
      env.embedOk = true ∧
      s' = ⟨store.mem ++ [acceptedDoc text md ts (calculate_score text (some md)) env.now],
            store.mem ++ [acceptedDoc text md ts (calculate_score text (some md)) env.now]⟩ := by
  by_cases hg : is_garbage text = true
  · exfalso
    simp [learn, hg] at h
  · rw [Bool.not_eq_true] at hg
    rcases deep_think_eq_or env text with hr | hr
    · by_cases hs : calculate_score text (some md) < 7
      · exfalso
        simp [learn, hg, hr, relevant_ne_noise, hs] at h
      · cases hts : pyGetTags md with
        | error e =>
            exfalso
            simp [learn, hg, hr, relevant_ne_noise, hs, hts] at h
        | ok ts =>
            by_cases he : env.embedOk = true
            · have hcomp := learn_accept_eq env store text md ts hg hr hs hts he
              rw [hcomp] at h
              refine ⟨ts, rfl, hg, hr, not_lt.mp hs, he, ?_⟩
              exact (congrArg Prod.snd h).symm
            · exfalso
              simp [learn, hg, hr, relevant_ne_noise, hs, hts, save_to_faiss, he] at h
    · exfalso
      simp [learn, hg, hr] at h

lemma calculate_score_of_hits (text : Str) (md : Option Metadata)
    (hd : domainHit (toLower text) = true) (hc : codeHit text = true)
    (ha : authorityHit (toLower text) = true) (hk : keywordHit (toLower text) = true) :
    calculate_score text md = 10 := by
  simp only [calculate_score, hd, hc, ha, hk, if_true]
  norm_num

lemma calculate_score_domain_only (text : Str) (md : Option Metadata)
    (hd : domainHit (toLower text) = true) (hc : codeHit text = false)
    (ha : authorityHit (toLower text) = false) (hk : keywordHit (toLower text) = false) :
    calculate_score text md = 7 := by
  simp only [calculate_score, hd, hc, ha, hk]
  norm_num

lemma calculate_score_no_hits (text : Str) (md : Option Metadata)
    (hd : domainHit (toLower text) = false) (hc : codeHit text = false)
    (ha : authorityHit (toLower text) = false) (hk : keywordHit (toLower text) = false) :
    calculate_score text md = 5 := by
  simp only [calculate_score, hd, hc, ha, hk]
  norm_num

lemma learn_embed_fail_eq (env : Env) (store : Store) (text : Str) (md : Metadata)
    (ts : List Str) (hg : is_garbage text = false)
    (hr : deep_think env text = RELEVANT)
    (hs : ¬ calculate_score text (some md) < 7)
    (hts : pyGetTags md = Except.ok ts) (he : env.embedOk = false) :
    learn env store text (some md) = (Except.error PyErr.embeddingError, store) := by
  simp [learn, save_to_faiss, hg, hr, hs, hts, he, relevant_ne_noise]

/-- C1: under a working commit step (embedding succeeds and the caller
`tags` entry, when present, is a list), `learn(text, metadata)` returns
`True` if and only if `is_garbage(text)` is false, `_deep_think(text)`
returns `"RELEVANT"` and `calculate_score(text, metadata) >= 7.0`; and on a
`True` return exactly one new record has been appended, the store was
persisted to backing storage before returning, and the record's stored
score is the evidence score, which is at least 7.0, with both gates
passed. -/
theorem C1_learn_contract (env : Env) (store : Store) (text : Str) (md : Metadata)
    (hembed : env.embedOk = true) (htags : tagsOk md = true) :
    ((learn env store text (some md)).1 = Except.ok true ↔
      (is_garbage text = false ∧ deep_think env text = RELEVANT ∧
        7 ≤ calculate_score text (some md))) ∧
    (∀ s', learn env store text (some md) = (Except.ok true, s') →
      ∃ doc, s'.mem = store.mem ++ [doc] ∧ s'.disk = s'.mem ∧
        getKey doc.metadata scoreKey = some (MVal.num (calculate_score text (some md))) ∧
        7 ≤ calculate_score text (some md) ∧ is_garbage text = false ∧
        deep_think env text = RELEVANT) := by
  obtain ⟨ts, hts⟩ : ∃ ts, pyGetTags md = Except.ok ts := by
    revert htags
    unfold tagsOk
    cases pyGetTags md <;> simp
  constructor
  · constructor
    · intro h
      have h' : learn env store text (some md) =
          (Except.ok true, (learn env store text (some md)).2) := by
        rw [← h]
      obtain ⟨ts', _, hg, hr, hs, _, _⟩ := learn_true_inv env store text md _ h'
      exact ⟨hg, hr, hs⟩
    · rintro ⟨hg, hr, hs⟩
      rw [learn_accept_eq env store text md ts hg hr (not_lt.mpr hs) hts hembed]
  · intro s' h
    obtain ⟨ts', hts', hg, hr, hs, he', hstore⟩ := learn_true_inv env store text md s' h
    subst hstore
    refine ⟨acceptedDoc text md ts' (calculate_score text (some md)) env.now,
      rfl, rfl, ?_, hs, hg, hr⟩
    simpa [acceptedDoc] using
      getKey_stamped_score md ts' (calculate_score text (some md)) env.now

/-- C1 witness: a concrete run through an all-bonus text with a relevant
oracle verdict is accepted. -/
theorem C1_learn_contract_witness :
    (learn env0 store0 exText (some [])).1 = Except.ok true :=
  ((C1_learn_contract env0 store0 exText [] rfl rfl).1).mpr
    ⟨by decide, by decide, by
      rw [calculate_score_of_hits exText (some []) (by decide) (by decide)
        (by decide) (by decide)]
      norm_num⟩

/-- C2: a blacklisted text is rejected immediately — `learn` returns
`False` and the store (in memory and on disk) is exactly the store it
started with, whatever the environment, metadata or score would have
been. -/
theorem C2_blacklist_short_circuit (env : Env) (store : Store) (text : Str)
    (md : Option Metadata) (h : is_garbage text = true) :
    learn env store text md = (Except.ok false, store) := by
  simp [learn, h]

/-- C2 witness: the `passive\s+income` pattern fires on a concrete text. -/
theorem C2_blacklist_short_circuit_witness :
    learn env0 store0 gText none = (Except.ok false, store0) :=
  C2_blacklist_short_circuit env0 store0 gText none (by decide)

/-- C3: `calculate_score` starts from base 5.0, adds each of the four
category bonuses at most once (the score is the capped sum of one
conditional bonus per category), stays in the closed interval `[0, 10]`,
and a text hitting all four categories sums to 12.5 and returns exactly
10.0. -/
theorem C3_score_bounds (text : Str) (md : Option Metadata) :
    0 ≤ calculate_score text md ∧ calculate_score text md ≤ 10 ∧
    calculate_score text md =
      min (5 + (if domainHit (toLower text) then (2 : ℚ) else 0)
          + (if codeHit text then (3 / 2 : ℚ) else 0)
          + (if authorityHit (toLower text) then (2 : ℚ) else 0)
          + (if keywordHit (toLower text) then (2 : ℚ) else 0)) 10 ∧
    (domainHit (toLower text) = true → codeHit text = true →
      authorityHit (toLower text) = true → keywordHit (toLower text) = true →
      (5 : ℚ) + 2 + 3 / 2 + 2 + 2 = 25 / 2 ∧ calculate_score text md = 10) := by
  refine ⟨?_, ?_, ?_, ?_⟩
  · simp only [calculate_score]
    split_ifs
    all_goals norm_num
  · simp only [calculate_score]
    split_ifs
    all_goals try norm_num
    all_goals linarith
  · simp only [calculate_score]
    split_ifs
    all_goals try norm_num [min_def]
    all_goals linarith
  · intro hd hc ha hk
    refine ⟨by norm_num, ?_⟩
    simp only [calculate_score, hd, hc, ha, hk, if_true]
    norm_num

/-- C3 witness: a concrete text hitting all four categories scores exactly
10. -/
theorem C3_score_bounds_witness :
    (5 : ℚ) + 2 + 3 / 2 + 2 + 2 = 25 / 2 ∧ calculate_score exText none = 10 :=
  (C3_score_bounds exText none).2.2.2 (by decide) (by decide) (by decide) (by decide)

/-- C4: after both gates pass, the score comparison is strict — a score of
exactly 7.0 is accepted (given the commit step can complete), and any score
strictly below 7.0 takes the low-score rejection branch: `learn` returns
`False` with the store unchanged. -/
theorem C4_threshold_boundary (env : Env) (store : Store) (text : Str) (md : Metadata)
    (hg : is_garbage text = false) (hr : deep_think env text = RELEVANT) :
    (calculate_score text (some md) = 7 → env.embedOk = true → tagsOk md = true →
      (learn env store text (some md)).1 = Except.ok true) ∧
    (calculate_score text (some md) < 7 →
      learn env store text (some md) = (Except.ok false, store)) := by
  constructor
  · intro hs hembed htags
    obtain ⟨ts, hts⟩ : ∃ ts, pyGetTags md = Except.ok ts := by
      revert htags
      unfold tagsOk
      cases pyGetTags md <;> simp
    rw [learn_accept_eq env store text md ts hg hr (by rw [hs]; norm_num) hts hembed]
  · intro hs
    simp [learn, hg, hr, relevant_ne_noise, hs]

/-- C4 witness: a trusted-domain-only text scores exactly 7 and is
accepted. -/
theorem C4_threshold_boundary_witness :
    (learn env0 store0 text7 (some [])).1 = Except.ok true :=
  (C4_threshold_boundary env0 store0 text7 [] (by decide) (by decide)).1
    (calculate_score_domain_only text7 (some []) (by decide) (by decide)
      (by decide) (by decide)) rfl rfl

/-- C5: when the Deep Think backend invocation raises, `_deep_think`
returns `"NOISE"` (never `"RELEVANT"`, never a propagated exception), and
`learn` rejects: it returns `False` with the store unchanged. -/
theorem C5_fail_closed (env : Env) (store : Store) (text : Str)
    (md : Option Metadata) (h : env.thinkOutcome = Except.error ()) :
    deep_think env text = NOISE ∧ learn env store text md = (Except.ok false, store) := by
  have hd : deep_think env text = NOISE := by
    unfold deep_think
    rw [h]
  refine ⟨hd, ?_⟩
  by_cases hg : is_garbage text = true
  · simp [learn, hg]
  · rw [Bool.not_eq_true] at hg
    simp [learn, hg, hd]

/-- C5 witness: a backend failure on a text that would otherwise be
accepted still rejects. -/
theorem C5_fail_closed_witness :
    deep_think envErr exText = NOISE ∧
    learn envErr store0 exText none = (Except.ok false, store0) :=
  C5_fail_closed envErr store0 exText none rfl

/-- C6: every record admitted by `learn` carries `"#Priority_Alpha"` in its
`tags` list and `priority = "alpha"` in its metadata, including when the
caller supplied its own `tags` list. -/
theorem C6_tag_stamping (env : Env) (store : Store) (text : Str) (md : Metadata)
    (s' : Store) (h : learn env store text (some md) = (Except.ok true, s')) :
    ∃ doc ts, s'.mem = store.mem ++ [doc] ∧
      getKey doc.metadata tagsKey = some (MVal.list ts) ∧
      priorityAlphaTag ∈ ts ∧
      getKey doc.metadata priorityKey = some (MVal.str alphaStr) := by
  obtain ⟨ts, hts, hg, hr, hs, he, hstore⟩ := learn_true_inv env store text md s' h
  subst hstore
  refine ⟨acceptedDoc text md ts (calculate_score text (some md)) env.now,
    ts ++ [priorityAlphaTag], rfl, ?_, ?_, ?_⟩
  · simpa [acceptedDoc] using
      getKey_stamped_tags md ts (calculate_score text (some md)) env.now
  · simp
  · simpa [acceptedDoc] using
      getKey_stamped_priority md ts (calculate_score text (some md)) env.now

/-- C6 witness: an accepted run whose caller already supplied a `tags`
list. -/
theorem C6_tag_stamping_witness :
    ∃ doc ts, ((learn env0 store0 exText (some mdTags)).2).mem = store0.mem ++ [doc] ∧
      getKey doc.metadata tagsKey = some (MVal.list ts) ∧
      priorityAlphaTag ∈ ts ∧
      getKey doc.metadata priorityKey = some (MVal.str alphaStr) := by
  have hacc := learn_accept_eq env0 store0 exText mdTags [keepStr] (by decide) (by decide)
    (by
      rw [calculate_score_of_hits exText (some mdTags) (by decide) (by decide)
        (by decide) (by decide)]
      norm_num)
    rfl rfl
  exact C6_tag_stamping env0 store0 exText mdTags _ (by rw [hacc])

/-- C7 counterexample: `is_garbage(None)` raises `AttributeError` (its
first statement is `text.lower()`), so `None` is not treated as the empty
string and the call does not return `False`. -/
theorem C7_counterexample :
    is_garbage_py none = Except.error PyErr.attributeError ∧
    ¬ is_garbage_py none = Except.ok false :=
  ⟨rfl, fun hcon => Except.noConfusion hcon⟩

/-- C7 amended: `is_garbage`, `calculate_score` and `evaluate` never raise
on any string input — on the empty string `is_garbage` is `False` and
`calculate_score` is the base score 5.0 — but a `None` text makes each of
them raise `AttributeError` rather than being treated as the empty
string. -/
theorem C7_amended_no_raise_on_str (t : Str) (md : Option Metadata) :
    is_garbage_py (some t) = Except.ok (is_garbage t) ∧
    calculate_score_py (some t) md = Except.ok (calculate_score t md) ∧
    evaluate_py (some t) md = Except.ok (evaluate t md) ∧
    is_garbage_py none = Except.error PyErr.attributeError ∧
    calculate_score_py none md = Except.error PyErr.attributeError ∧
    evaluate_py none md = Except.error PyErr.attributeError ∧
    is_garbage [] = false ∧
    calculate_score [] md = 5 := by
  refine ⟨rfl, rfl, rfl, rfl, rfl, rfl, by decide, ?_⟩
  exact calculate_score_no_hits [] md (by decide) (by decide) (by decide) (by decide)

/-- C8 counterexample: with both gates passed and an embedding failure,
`learn` propagates the exception instead of returning a rejection verdict
(the store, in memory and on disk, is unchanged). -/
theorem C8_counterexample :
    learn envNoEmbed store0 exText (some []) = (Except.error PyErr.embeddingError, store0) ∧
    ¬ (Except.error PyErr.embeddingError : Except PyErr Bool) = Except.ok false :=
  ⟨learn_embed_fail_eq envNoEmbed store0 exText [] [] (by decide) (by decide)
    (by
      rw [calculate_score_of_hits exText (some []) (by decide) (by decide)
        (by decide) (by decide)]
      norm_num)
    rfl rfl,
   fun hcon => Except.noConfusion hcon⟩

/-- C8 amended: if embedding generation fails during the commit step for a
candidate that passed all three gates, `learn` raises the embedding
exception to its caller (there is no `try` around `_save_to_faiss`), and no
record is inserted: the store is returned unchanged, in memory and on
disk. -/
theorem C8_amended_embed_failure (env : Env) (store : Store) (text : Str) (md : Metadata)
    (he : env.embedOk = false) (hg : is_garbage text = false)
    (hr : deep_think env text = RELEVANT)
    (hs : 7 ≤ calculate_score text (some md)) (htags : tagsOk md = true) :
    learn env store text (some md) = (Except.error PyErr.embeddingError, store) := by
  obtain ⟨ts, hts⟩ : ∃ ts, pyGetTags md = Except.ok ts := by
    revert htags
    unfold tagsOk
    cases pyGetTags md <;> simp
  exact learn_embed_fail_eq env store text md ts hg hr (not_lt.mpr hs) hts he

/-- C8 amended witness: a concrete gate-passing run with a failing
embedding backend raises. -/
theorem C8_amended_embed_failure_witness :
    learn envNoEmbed store0 exText (some []) = (Except.error PyErr.embeddingError, store0) :=
  C8_amended_embed_failure envNoEmbed store0 exText [] rfl (by decide) (by decide)
    (by
      rw [calculate_score_of_hits exText (some []) (by decide) (by decide)
        (by decide) (by decide)]
      norm_num)
    rfl

/-- C9: `_retrieve_context` returns the empty string when the vector store
handle is `None`, when the similarity search raises, and when the search
returns no documents — it never fails the caller. -/
theorem C9_retrieve_context_safe (vs : Option (List Document))
    (outcome : Except Unit (List Document)) (q : Str) :
    retrieve_context none outcome q = [] ∧
    retrieve_context vs (Except.error ()) q = [] ∧
    retrieve_context vs (Except.ok []) q = [] := by
  refine ⟨rfl, ?_, ?_⟩ <;> cases vs <;> rfl

/-- C10 counterexample: an accepted run whose caller supplied its own
`priority` value shows that caller-supplied keys other than `source` are
not all preserved — the stored `priority` is `"alpha"`, not the caller's
`"beta"`. -/
theorem C10_counterexample :
    (learn env0 store0 exText (some mdBeta)).1 = Except.ok true ∧
    getKey mdBeta priorityKey = some (MVal.str betaStr) ∧
    (((learn env0 store0 exText (some mdBeta)).2).mem.map
      fun d => getKey d.metadata priorityKey) = [some (MVal.str alphaStr)] ∧
    ¬ MVal.str alphaStr = MVal.str betaStr := by
  have hacc := learn_accept_eq env0 store0 exText mdBeta [] (by decide) (by decide)
    (by
      rw [calculate_score_of_hits exText (some mdBeta) (by decide) (by decide)
        (by decide) (by decide)]
      norm_num)
    rfl rfl
  refine ⟨by rw [hacc], rfl, ?_, by decide⟩
  rw [hacc]
  simp [store0, acceptedDoc, getKey_stamped_priority]

/-- C10 amended: every record admitted by `learn` has
`source = "archivarius"` in its stored metadata, overwriting any
caller-supplied `source`; caller-supplied keys other than `source`,
`score`, `timestamp`, `tags` and `priority` (the keys the pipeline stamps)
are kept unchanged. -/
theorem C10_amended_source_stamp (env : Env) (store : Store) (text : Str) (md : Metadata)
    (s' : Store) (h : learn env store text (some md) = (Except.ok true, s')) :
    ∃ doc, s'.mem = store.mem ++ [doc] ∧
      getKey doc.metadata sourceKey = some (MVal.str archivariusStr) ∧
      ∀ k, ¬ k = sourceKey → ¬ k = scoreKey → ¬ k = timestampKey →
        ¬ k = tagsKey → ¬ k = priorityKey →
        getKey doc.metadata k = getKey md k := by
  obtain ⟨ts, hts, hg, hr, hs, he, hstore⟩ := learn_true_inv env store text md s' h
  subst hstore
  refine ⟨acceptedDoc text md ts (calculate_score text (some md)) env.now, rfl, ?_, ?_⟩
  · simpa [acceptedDoc] using
      getKey_stamped_source md ts (calculate_score text (some md)) env.now
  · intro k h1 h2 h3 h4 h5
    simpa [acceptedDoc] using
      getKey_stamped_other md ts (calculate_score text (some md)) env.now k h1 h2 h3 h4 h5

/-- C10 amended witness: an accepted run with an unrelated caller key. -/
theorem C10_amended_source_stamp_witness :
    ∃ doc, ((learn env0 store0 exText (some mdExtra)).2).mem = store0.mem ++ [doc] ∧
      getKey doc.metadata sourceKey = some (MVal.str archivariusStr) ∧
      ∀ k, ¬ k = sourceKey → ¬ k = scoreKey → ¬ k = timestampKey →
        ¬ k = tagsKey → ¬ k = priorityKey →
        getKey doc.metadata k = getKey mdExtra k := by
  have hacc := learn_accept_eq env0 store0 exText mdExtra [] (by decide) (by decide)
    (by
      rw [calculate_score_of_hits exText (some mdExtra) (by decide) (by decide)
        (by decide) (by decide)]
      norm_num)
    rfl rfl
  exact C10_amended_source_stamp env0 store0 exText mdExtra _ (by rw [hacc])

end MemoryPipeline

